import Mathlib

/-!
Verification of the twistedsshclient session layer: host-key trust decision,
credential rotation, channel-as-socket emulation and session callbacks.
Definitions are shallow embeddings of the Python source in src/.
-/

namespace TwistedSSHClient

/-- Byte strings are modelled as lists of naturals. -/
abbrev Bytes := List Nat

/-- A public key as handled by verifyHostKey: its algorithm name
(server_key.type()) and its raw material, compared byte-for-byte. -/
structure Key where
  keyType : String
  blob : Bytes
deriving DecidableEq, Repr

/-- A private key candidate collected by SSHUserAuthClient.collect_keys:
carries its public half (returned by .public()) and private material. -/
structure PrivateKey where
  pub : Key
  privBlob : Bytes
deriving DecidableEq, Repr

/-- pkey.public() in getPublicKey. -/
def PrivateKey.public (k : PrivateKey) : Key := k.pub

/-- A Python runtime value as returned by a missing_host_key policy method;
verifyHostKey tests it with the identity comparison status is False. -/
inductive PyVal where
  | none
  | bool (b : Bool)
  | int (n : Int)
  | str (s : String)
deriving DecidableEq, Repr

/-- The Python test status is False: True exactly for the singleton object
False. In CPython, 0 is False and the empty string is False are both false
because is compares object identity, not truthiness. -/
def PyVal.isFalseIdentity : PyVal → Bool
  | .bool false => true
  | _ => false

/-- Python exceptions that the embedded code can raise. -/
inductive PyError where
  | nameError (missing : String)
  | attributeError (attr : String)
  | alreadyCalledError
deriving DecidableEq, Repr

/-- Modelled from the spec: the HostKeys store (module hostkeys is imported by
sshclient.py but is not part of src/). Per the spec data model it is a mapping
host label and key type to public key, with at most one key per pair; add
replaces an existing entry for the same pair. -/
structure HostKeys where
  entries : List ((String × String) × Key)
deriving DecidableEq, Repr

/-- Modelled from the spec: lookup by (hostLabel, keyType), embedding the
two-level dict access hk.get(name, dict).get(keytype, None) in verifyHostKey. -/
def HostKeys.get (hk : HostKeys) (host keytype : String) : Option Key :=
  (hk.entries.find? (fun e => e.1 = (host, keytype))).map (fun e => e.2)

/-- Modelled from the spec: add(hostLabel, keyType, key) on the local store;
a new entry overwrites an old one for the same (host, type) pair. -/
def HostKeys.add (hk : HostKeys) (host keytype : String) (k : Key) : HostKeys :=
  ⟨((host, keytype), k) :: hk.entries.filter (fun e => e.1 ≠ (host, keytype))⟩

/-- The error taxonomy of errors.py that verifyHostKey and receiveError raise:
each constructor carries the fields stored on the exception object. -/
inductive SSHException where
  | unknownHostKey (hostname : String) (key : Key)
  | badHostKey (hostname : String) (key : Key) (expected : Key)
  | remoteError (code : Nat) (reason : String)
deriving DecidableEq, Repr

/-- The SSHClient state that verifyHostKey reads: connection parameters and
the two host-key stores. -/
structure SSHClientState where
  hostname : String
  port : Nat
  system_host_keys : HostKeys
  host_keys : HostKeys
deriving DecidableEq, Repr

/-- The host label computed at the top of verifyHostKey:
the hostname when port == SSH_PORT (22), else the bracketed form. -/
def hostLabel (hostname : String) (port : Nat) : String :=
  if port = 22 then hostname else "[" ++ hostname ++ "]:" ++ toString port

/-- The store lookup of verifyHostKey: system store first, the local store
only when the system store has no entry for the pair. -/
def storedKeyFor (c : SSHClientState) (keytype : String) : Option Key :=
  let name := hostLabel c.hostname c.port
  match c.system_host_keys.get name keytype with
  | some k => some k
  | none => c.host_keys.get name keytype

/-- A policy object as verifyHostKey calls it: missing_host_key may mutate the
local store (AutoAdd does), may raise, and returns a Python value tested with
status is False. -/
abbrev Policy := HostKeys → String → Key → Except PyError (HostKeys × PyVal)

/-- RejectPolicy.missing_host_key: logs and returns False. -/
def RejectPolicy.missing_host_key : Policy := fun localStore _hostname _key =>
  .ok (localStore, .bool false)

/-- AutoAddPolicy.missing_host_key: adds (hostname, key.type(), key) to the
local store, logs, and falls off the end (returns None). -/
def AutoAddPolicy.missing_host_key : Policy := fun localStore hostname key =>
  .ok (localStore.add hostname key.keyType key, .none)

/-- WarningPolicy.missing_host_key: the source calls warnings.warn, but
policies.py imports only log from twisted.python, never the warnings module,
so the call raises NameError (the name warnings is undefined) at runtime. -/
def WarningPolicy.missing_host_key : Policy := fun _localStore _hostname _key =>
  .error (.nameError "warnings")

/-- MissingHostKeyPolicy.missing_host_key, the base class default: pass,
which returns None. -/
def MissingHostKeyPolicy.missing_host_key : Policy := fun localStore _hostname _key =>
  .ok (localStore, .none)

/-- What a call to verifyHostKey does: whether the returned deferred succeeds,
the failures passed to transport.connectionLost (transport teardown), and the
client state afterwards (the stores live on it). -/
structure VerifyResult where
  accepted : Bool
  connectionLostCalls : List SSHException
  client : SSHClientState
deriving DecidableEq, Repr

/-- The final comparison of verifyHostKey: if server_key != our_server_key then
tear down with BadHostKeyException(hostname, server_key, our_server_key) and
fail, else succeed. -/
def finishHostKeyCheck (c : SSHClientState) (server_key our_server_key : Key) :
    VerifyResult :=
  if server_key ≠ our_server_key then
    ⟨false, [.badHostKey c.hostname server_key our_server_key], c⟩
  else
    ⟨true, [], c⟩

/-- SSHClientTransport.verifyHostKey: compute the host label, look the key type
up in the system store then the local store; when absent invoke the policy
(which may mutate the local store or raise), reject when it returns the object
False (tearing down with UnknownHostKeyException), otherwise adopt the
presented key as the expected one; finally compare presented against expected
and tear down with BadHostKeyException on mismatch. -/
def verifyHostKey (c : SSHClientState) (policy : Policy) (server_key : Key) :
    Except PyError VerifyResult :=
  let keytype := server_key.keyType
  let server_hostkey_name := hostLabel c.hostname c.port
  match storedKeyFor c keytype with
  | some our_server_key => .ok (finishHostKeyCheck c server_key our_server_key)
  | none =>
      match policy c.host_keys server_hostkey_name server_key with
      | .error e => .error e
      | .ok (localAfter, status) =>
          let c2 := { c with host_keys := localAfter }
          if status.isFalseIdentity then
            .ok ⟨false, [.unknownHostKey c.hostname server_key], c2⟩
          else
            .ok (finishHostKeyCheck c2 server_key server_key)

/-! Credential rotation: SSHUserAuthClient of sshclient.py. The candidate
keys live in found_keys and found_keys_iter = itertools.cycle(found_keys);
the cycle is modelled by an ever-increasing cursor read modulo the length. -/

/-- The rotation state of SSHUserAuthClient: the collected keys, the position
of the cycle iterator, and the key selected by the last getPublicKey call. -/
structure AuthState where
  found_keys : List PrivateKey
  cursor : Nat
  current_pkey : Option PrivateKey
deriving DecidableEq, Repr

/-- State right after __init__ ran collect_keys with these candidates: a fresh
cycle iterator and no current key. -/
def initAuth (keys : List PrivateKey) : AuthState := ⟨keys, 0, none⟩

/-- SSHUserAuthClient.getPublicKey: when found_keys is empty return None
(the bare return); otherwise take the next element of the cycle, remember it
as current_pkey, and return its public half. -/
def getPublicKey (s : AuthState) : Option Key × AuthState :=
  if s.found_keys.isEmpty then (none, s)
  else
    match s.found_keys.get? (s.cursor % s.found_keys.length) with
    | some k => (some k.public, { s with cursor := s.cursor + 1, current_pkey := some k })
    | none => (none, s)

/-- SSHUserAuthClient.getPrivateKey: the key matching the most recent
getPublicKey call, or None when no candidate was selected. -/
def getPrivateKey (s : AuthState) : Option PrivateKey :=
  s.current_pkey

/-- The rotation state after n successive getPublicKey calls. -/
def authStateAfterCalls (s : AuthState) : Nat → AuthState
  | 0 => s
  | n + 1 => (getPublicKey (authStateAfterCalls s n)).2

/-- The value returned by the n-th getPublicKey call (1-based) on a provider
started in state s. -/
def nthPublicKey (s : AuthState) (n : Nat) : Option Key :=
  (getPublicKey (authStateAfterCalls s (n - 1))).1

/-! Channel-as-socket emulation: DirectTcpIpChannelClient and
DirectTcpIpChannelConnector of directchannel.py. -/

/-- The adapted protocol built by connector.buildProtocol: we record the data
chunks forwarded to it by dataReceived. -/
structure ProtocolState where
  received : List Bytes
deriving DecidableEq, Repr

/-- Errors handed to failIfNotConnected and connectionLost. -/
inductive ChanError where
  | userError
  | connectError
  | connectionDone
deriving DecidableEq, Repr

/-- Observable calls the channel makes on its collaborators. -/
inductive ChanEvent where
  | connectorConnectionFailed (e : ChanError)
  | connectorConnectionLost
  | protocolConnectionLost
  | protocolMadeConnection
deriving DecidableEq, Repr

/-- DirectTcpIpChannelClient attribute state: the connected, disconnected and
disconnecting flags, the adapted protocol (None before _connectDone and after
del self.protocol), whether self.connector still exists (failIfNotConnected
runs del self.connector), and whether each one-shot deferred has fired. -/
structure ChannelState where
  connected : Bool
  disconnected : Bool
  disconnecting : Bool
  protocol : Option ProtocolState
  hasConnector : Bool
  connectionLostDeferFired : Bool
  connectionFailedDeferFired : Bool
deriving DecidableEq, Repr

/-- State right after __init__: all flags 0, no protocol yet (the open request
is only scheduled), connector attribute present, deferreds unfired. This is
the Opening state of the spec state machine. -/
def initChannel : ChannelState :=
  ⟨false, false, false, none, true, false, false⟩

/-- DirectTcpIpChannelConnector attribute state: the two propagation flags,
a count of loseConnection calls made on the parent multiplexed connection,
whether factory.stopTrying raises when called, and a count of successful
stopTrying calls. -/
structure ConnectorState where
  loseconnection_on_protocollose : Bool
  loseconnection_on_protocolfailed : Bool
  parentLoseConnectionCalls : Nat
  stopTryingRaises : Bool
  stopTryingCalls : Nat
deriving DecidableEq, Repr

/-- factory.stopTrying as called by transportProtocolDisconnected: the factory
may not have the method (a plain ClientFactory), modelled as a raise. -/
def stopTryingCall (cn : ConnectorState) : Except PyError ConnectorState :=
  if cn.stopTryingRaises then .error (.attributeError "stopTrying")
  else .ok { cn with stopTryingCalls := cn.stopTryingCalls + 1 }

/-- DirectTcpIpChannelConnector.transportProtocolDisconnected: when the
deferred result is truthy, call loseConnection on the parent connection, then
try factory.stopTrying and swallow any exception it raises. -/
def transportProtocolDisconnected (cn : ConnectorState) (obj : Bool) :
    ConnectorState :=
  if obj then
    let cn1 := { cn with parentLoseConnectionCalls := cn.parentLoseConnectionCalls + 1 }
    match stopTryingCall cn1 with
    | .ok cn2 => cn2
    | .error _ => cn1
  else cn

/-- The channel together with its owning connector: the deferred callbacks
installed by _makeTransport link the two. -/
structure ForwardState where
  chan : ChannelState
  conn : ConnectorState
deriving DecidableEq, Repr

/-- connectionFailedDefer.callback(1): a Twisted deferred raises
AlreadyCalledError on a second callback; when loseconnection_on_protocolfailed
was set, _makeTransport chained transportProtocolDisconnected on it. -/
def fireConnectionFailedDefer (s : ForwardState) : Except PyError ForwardState :=
  if s.chan.connectionFailedDeferFired then .error .alreadyCalledError
  else
    let s1 : ForwardState :=
      { s with chan := { s.chan with connectionFailedDeferFired := true } }
    if s1.conn.loseconnection_on_protocolfailed then
      .ok { s1 with conn := transportProtocolDisconnected s1.conn true }
    else .ok s1

/-- connectionLostDefer.callback(1): same shape, chained through
transportProtocolDisconnected when loseconnection_on_protocollose was set. -/
def fireConnectionLostDefer (s : ForwardState) : Except PyError ForwardState :=
  if s.chan.connectionLostDeferFired then .error .alreadyCalledError
  else
    let s1 : ForwardState :=
      { s with chan := { s.chan with connectionLostDeferFired := true } }
    if s1.conn.loseconnection_on_protocollose then
      .ok { s1 with conn := transportProtocolDisconnected s1.conn true }
    else .ok s1

/-- DirectTcpIpChannelClient.failIfNotConnected: return silently when already
connected, already disconnected, or the connector attribute is gone; otherwise
notify the connector of the failure, delete the connector attribute and fire
connectionFailedDefer. -/
def failIfNotConnected (s : ForwardState) (err : ChanError) :
    Except PyError (ForwardState × List ChanEvent) :=
  if s.chan.connected || s.chan.disconnected || !s.chan.hasConnector then
    .ok (s, [])
  else
    let s1 : ForwardState := { s with chan := { s.chan with hasConnector := false } }
    (fireConnectionFailedDefer s1).map
      (fun s2 => (s2, [.connectorConnectionFailed err]))

/-- DirectTcpIpChannelClient.stopConnecting: failIfNotConnected(UserError). -/
def stopConnecting (s : ForwardState) : Except PyError (ForwardState × List ChanEvent) :=
  failIfNotConnected s .userError

/-- DirectTcpIpChannelClient.openFailed: the remote refused the open;
failIfNotConnected(ConnectError). -/
def openFailed (s : ForwardState) : Except PyError (ForwardState × List ChanEvent) :=
  failIfNotConnected s .connectError

/-- DirectTcpIpChannelClient.channelOpen, which runs _connectDone: build the
protocol through self.connector (an AttributeError when the connector was
deleted by an earlier failIfNotConnected), set connected and hand the protocol
its transport via makeConnection. -/
def channelOpen (s : ForwardState) : Except PyError (ForwardState × List ChanEvent) :=
  if s.chan.hasConnector then
    .ok ({ s with chan := { s.chan with
            protocol := some ⟨[]⟩,
            connected := true,
            disconnected := false,
            disconnecting := false } },
         [.protocolMadeConnection])
  else
    .error (.attributeError "connector")

/-- DirectTcpIpChannelClient.dataReceived: forward to self.protocol unless the
disconnected flag is set. When no protocol exists yet (self.protocol is None,
as in the Opening state) the attribute access on None raises. -/
def dataReceived (c : ChannelState) (data : Bytes) : Except PyError ChannelState :=
  if !c.disconnected then
    match c.protocol with
    | some p => .ok { c with protocol := some ⟨p.received ++ [data]⟩ }
    | none => .error (.attributeError "dataReceived")
  else
    .ok c

/-- DirectTcpIpChannelClient.connectionLost: when not connected, fall back to
failIfNotConnected(ConnectError); when connected, set disconnected, clear
connected, delete and notify the protocol, notify the connector and fire
connectionLostDefer. -/
def channelConnectionLost (s : ForwardState) :
    Except PyError (ForwardState × List ChanEvent) :=
  if !s.chan.connected then
    failIfNotConnected s .connectError
  else
    match s.chan.protocol with
    | none => .error (.attributeError "protocol")
    | some _ =>
        let s1 : ForwardState :=
          { s with chan := { s.chan with
              disconnected := true, connected := false, protocol := none } }
        if s1.chan.hasConnector then
          (fireConnectionLostDefer s1).map
            (fun s2 => (s2, [.protocolConnectionLost, .connectorConnectionLost]))
        else
          .error (.attributeError "connector")

/-! Session callbacks: SSHClient and SSHClientSpecializedFactory of
sshclient.py. -/

/-- A failure reason as seen by the specialized factory: either an
SSHException from this package (or a Failure wrapping one), or a failure of
any other class. -/
inductive Reason where
  | ssh (e : SSHException)
  | other (desc : String)
deriving DecidableEq, Repr

/-- The isinstance(reason, SSHException) or reason.check(SSHException) test
of SSHClientSpecializedFactory. -/
def Reason.isSSHException : Reason → Bool
  | .ssh _ => true
  | .other _ => false

/-- The callback bookkeeping of SSHClient: whether callback and errback are
registered, and the invocations made so far. -/
structure CallbackState where
  hasCallback : Bool
  hasErrback : Bool
  callbackCalls : Nat
  errbackCalls : List Reason
deriving DecidableEq, Repr

/-- SSHClient.processErrback: invoke the registered errback, if any. -/
def processErrback (cs : CallbackState) (reason : Reason) : CallbackState :=
  if cs.hasErrback then { cs with errbackCalls := cs.errbackCalls ++ [reason] }
  else cs

/-- SSHClient.processCallback, reached from SSHConnection.serviceStarted on
success: invoke the registered callback, if any. -/
def processCallback (cs : CallbackState) : CallbackState :=
  if cs.hasCallback then { cs with callbackCalls := cs.callbackCalls + 1 }
  else cs

/-- SSHClientSpecializedFactory.clientConnectionLost (clientConnectionFailed is
identical): call processErrback only when the reason is an SSHException, then
delegate to the base factory. -/
def clientConnectionLost (cs : CallbackState) (reason : Reason) : CallbackState :=
  if reason.isSSHException then processErrback cs reason
  else cs

/-! Concrete fixtures used by witnesses and counterexamples. -/

/-- A sample rsa host key. -/
def keyA : Key := ⟨"ssh-rsa", [1, 2, 3]⟩

/-- A key of the same type as keyA differing in one byte. -/
def keyB : Key := ⟨"ssh-rsa", [1, 2, 4]⟩

/-- A client whose system store holds keyA for example.com. -/
def clientEx1 : SSHClientState :=
  ⟨"example.com", 22, ⟨[(("example.com", "ssh-rsa"), keyA)]⟩, ⟨[]⟩⟩

/-- A client with both stores empty. -/
def clientEx2 : SSHClientState := ⟨"example.com", 22, ⟨[]⟩, ⟨[]⟩⟩

/-- A custom policy returning the integer 0, a falsy value that is not the
object False. -/
def zeroPolicy : Policy := fun localStore _hostname _key => .ok (localStore, .int 0)

/-- A sample collected private key. -/
def pkA : PrivateKey := ⟨⟨"ssh-rsa", [10]⟩, [1]⟩

/-- A second collected private key of a different type. -/
def pkB : PrivateKey := ⟨⟨"ssh-dss", [20]⟩, [2]⟩

/-- A connector with both propagation flags off. -/
def conn0 : ConnectorState := ⟨false, false, 0, false, 0⟩

/-- A connector configured with loseconnection_on_protocollose. -/
def connLose : ConnectorState := ⟨true, false, 0, false, 0⟩

/-- A channel in the Opening state with its connector, as built by
_makeTransport. -/
def fwd0 : ForwardState := ⟨initChannel, conn0⟩

/-- A channel in the Open state: connected, protocol built, connector
present, deferreds unfired. -/
def openChanEx : ChannelState := ⟨true, false, false, some ⟨[]⟩, true, false, false⟩

/-- An Open channel owned by a propagate-on-loss connector. -/
def openFwd : ForwardState := ⟨openChanEx, connLose⟩

/-- A client with both a success callback and a failure errback registered
and no invocations yet. -/
def cs0 : CallbackState := ⟨true, true, 0, []⟩

/-! Helper lemmas. -/

/-- Adding a key makes it the stored key for its own pair. -/
theorem HostKeys.get_add_same (hk : HostKeys) (h t : String) (k : Key) :
    (hk.add h t k).get h t = some k := by
  simp [HostKeys.get, HostKeys.add, List.find?_cons_of_pos]

/-- The combined lookup misses exactly when both stores miss. -/
theorem storedKeyFor_eq_none_iff (c : SSHClientState) (kt : String) :
    storedKeyFor c kt = none ↔
      c.system_host_keys.get (hostLabel c.hostname c.port) kt = none ∧
      c.host_keys.get (hostLabel c.hostname c.port) kt = none := by
  unfold storedKeyFor
  cases h : c.system_host_keys.get (hostLabel c.hostname c.port) kt <;> simp [h]

/-- The identity test status is False holds exactly for the value False. -/
theorem PyVal.isFalseIdentity_eq_true_iff (v : PyVal) :
    v.isFalseIdentity = true ↔ v = .bool false := by
  cases v with
  | bool b => cases b <;> simp [PyVal.isFalseIdentity]
  | none => simp [PyVal.isFalseIdentity]
  | int n => simp [PyVal.isFalseIdentity]
  | str s => simp [PyVal.isFalseIdentity]

/-! Claim theorems. -/

/-- C5: the host label used for host-key lookup is the hostname when
port = 22 and the bracketed "[hostname]:port" form otherwise. -/
theorem hostLabel_formatting (hostname : String) (port : Nat) :
    hostLabel hostname port =
      if port = 22 then hostname
      else "[" ++ hostname ++ "]:" ++ toString port := rfl

/-- C1: when a stored key exists for the computed host label and presented key
type (system store first, local store second) and it differs from the
presented key, verifyHostKey fails, calls transport.connectionLost with a
BadHostKeyException carrying the hostname, the presented key and the expected
key, and leaves the client (hence both stores) unchanged, whatever the
policy. -/
theorem verifyHostKey_mismatch_fails (c : SSHClientState) (policy : Policy)
    (server_key stored : Key)
    (hfound : storedKeyFor c server_key.keyType = some stored)
    (hne : server_key ≠ stored) :
    verifyHostKey c policy server_key =
      .ok ⟨false, [.badHostKey c.hostname server_key stored], c⟩ := by
  simp [verifyHostKey, hfound, finishHostKeyCheck, hne]

/-- Witness for C1: the system store holds keyA, the server presents keyB
(one byte different); verification fails with the populated exception and
the stores are untouched. -/
theorem verifyHostKey_mismatch_fails_witness :
    verifyHostKey clientEx1 RejectPolicy.missing_host_key keyB =
      .ok ⟨false, [.badHostKey "example.com" keyB keyA], clientEx1⟩ :=
  verifyHostKey_mismatch_fails clientEx1 RejectPolicy.missing_host_key keyB keyA
    (by rfl) (by decide)

/-- C3: with the presented key absent from both stores, AutoAddPolicy makes
verification succeed with no transport teardown, the local store afterwards
maps the computed host label and key type to exactly the presented key, and a
second verification of the same key succeeds with no state change whatever
policy is installed (so the policy is not consulted again). -/
theorem verifyHostKey_autoAdd (c : SSHClientState) (k : Key)
    (habs : storedKeyFor c k.keyType = none) :
    ∃ c2 : SSHClientState,
      verifyHostKey c AutoAddPolicy.missing_host_key k = .ok ⟨true, [], c2⟩ ∧
      c2.host_keys.get (hostLabel c.hostname c.port) k.keyType = some k ∧
      ∀ p : Policy, verifyHostKey c2 p k = .ok ⟨true, [], c2⟩ := by
  obtain ⟨hsys, hloc⟩ := (storedKeyFor_eq_none_iff c k.keyType).mp habs
  refine ⟨{ c with host_keys :=
      c.host_keys.add (hostLabel c.hostname c.port) k.keyType k }, ?_, ?_, ?_⟩
  · simp [verifyHostKey, habs, AutoAddPolicy.missing_host_key,
      PyVal.isFalseIdentity, finishHostKeyCheck]
  · exact HostKeys.get_add_same c.host_keys _ _ k
  · intro p
    have hstored : storedKeyFor
        { c with host_keys :=
            c.host_keys.add (hostLabel c.hostname c.port) k.keyType k }
        k.keyType = some k := by
      unfold storedKeyFor
      simp only [hsys]
      exact HostKeys.get_add_same c.host_keys _ _ k
    simp [verifyHostKey, hstored, finishHostKeyCheck]

/-- Witness for C3: starting from empty stores, AutoAddPolicy accepts keyA,
records it, and the follow-up verification is policy-independent. -/
theorem verifyHostKey_autoAdd_witness :
    storedKeyFor clientEx2 keyA.keyType = none ∧
    ∃ c2 : SSHClientState,
      verifyHostKey clientEx2 AutoAddPolicy.missing_host_key keyA = .ok ⟨true, [], c2⟩ ∧
      c2.host_keys.get (hostLabel clientEx2.hostname clientEx2.port) keyA.keyType
        = some keyA ∧
      ∀ p : Policy, verifyHostKey c2 p keyA = .ok ⟨true, [], c2⟩ :=
  ⟨by rfl, verifyHostKey_autoAdd clientEx2 keyA (by rfl)⟩

/-- C4 evaluation: with the presented key unknown, WarningPolicy does not
accept the key; its missing_host_key body raises NameError because policies.py
never imports the warnings module it calls. -/
theorem verifyHostKey_warning_raises (c : SSHClientState) (k : Key)
    (habs : storedKeyFor c k.keyType = none) :
    verifyHostKey c WarningPolicy.missing_host_key k =
      .error (.nameError "warnings") := by
  simp [verifyHostKey, habs, WarningPolicy.missing_host_key]

/-- Witness for C4: the failing input made concrete — empty stores, keyA
presented under WarningPolicy. -/
theorem verifyHostKey_warning_raises_witness :
    storedKeyFor clientEx2 keyA.keyType = none ∧
    verifyHostKey clientEx2 WarningPolicy.missing_host_key keyA =
      .error (.nameError "warnings") :=
  ⟨by rfl, verifyHostKey_warning_raises clientEx2 keyA (by rfl)⟩

/-- C10: on the unknown-key path, verifyHostKey rejects exactly when the
policy returned the object False: any other return value, including None,
0 or an empty string, leads to acceptance of the unknown key. -/
theorem verifyHostKey_identity_false_test (c : SSHClientState) (policy : Policy)
    (k : Key) (localAfter : HostKeys) (status : PyVal)
    (habs : storedKeyFor c k.keyType = none)
    (hpol : policy c.host_keys (hostLabel c.hostname c.port) k
      = .ok (localAfter, status)) :
    verifyHostKey c policy k =
      (if status = .bool false then
        .ok ⟨false, [.unknownHostKey c.hostname k],
          { c with host_keys := localAfter }⟩
      else
        .ok ⟨true, [], { c with host_keys := localAfter }⟩) := by
  by_cases hs : status = .bool false
  · simp [verifyHostKey, habs, hpol, hs, PyVal.isFalseIdentity]
  · have hfid : status.isFalseIdentity = false := by
      rcases hfid : status.isFalseIdentity with _ | _
      · rfl
      · exact absurd ((PyVal.isFalseIdentity_eq_true_iff status).mp hfid) hs
    simp [verifyHostKey, habs, hpol, hs, hfid, finishHostKeyCheck]

/-- Witness for C10: a policy returning the falsy integer 0 is treated as
acceptance, because 0 is not the object False. -/
theorem verifyHostKey_identity_false_test_witness :
    verifyHostKey clientEx2 zeroPolicy keyA = .ok ⟨true, [], clientEx2⟩ := by
  have h := verifyHostKey_identity_false_test clientEx2 zeroPolicy keyA
    clientEx2.host_keys (.int 0) (by rfl) (by rfl)
  simpa using h

/-! Credential-rotation lemmas and claim C6. -/

/-- getPublicKey never changes the candidate list. -/
theorem getPublicKey_preserves_keys (s : AuthState) :
    (getPublicKey s).2.found_keys = s.found_keys := by
  unfold getPublicKey
  by_cases h : s.found_keys.isEmpty
  · simp [h]
  · simp only [h, Bool.false_eq_true, if_neg, ite_false]
    cases hg : s.found_keys.get? (s.cursor % s.found_keys.length) <;> simp

/-- On a nonempty candidate list, getPublicKey returns the cycle element at
the cursor and advances the cursor by one. -/
theorem getPublicKey_nonempty (s : AuthState) (h : s.found_keys ≠ [])
    (hlt : s.cursor % s.found_keys.length < s.found_keys.length) :
    getPublicKey s =
      (some (s.found_keys.get ⟨s.cursor % s.found_keys.length, hlt⟩).public,
       { s with cursor := s.cursor + 1,
                current_pkey := some (s.found_keys.get
                  ⟨s.cursor % s.found_keys.length, hlt⟩) }) := by
  unfold getPublicKey
  rw [List.get?_eq_get hlt]
  simp [List.isEmpty_iff, h]

/-- The candidate list is unchanged by any number of calls. -/
theorem authStateAfterCalls_keys (s : AuthState) (n : Nat) :
    (authStateAfterCalls s n).found_keys = s.found_keys := by
  induction n with
  | zero => rfl
  | succ n ih =>
      simpa [authStateAfterCalls, getPublicKey_preserves_keys] using ih

/-- With a nonempty candidate list, n calls advance the cursor by n. -/
theorem authStateAfterCalls_cursor (s : AuthState) (h : s.found_keys ≠ [])
    (n : Nat) : (authStateAfterCalls s n).cursor = s.cursor + n := by
  induction n with
  | zero => rfl
  | succ n ih =>
      have hkeys : (authStateAfterCalls s n).found_keys = s.found_keys :=
        authStateAfterCalls_keys s n
      have hne : (authStateAfterCalls s n).found_keys ≠ [] := by rw [hkeys]; exact h
      have hlen : 0 < (authStateAfterCalls s n).found_keys.length :=
        List.length_pos.mpr hne
      have hlt := Nat.mod_lt ((authStateAfterCalls s n).cursor) hlen
      simp only [authStateAfterCalls,
        getPublicKey_nonempty (authStateAfterCalls s n) hne hlt]
      rw [ih]
      omega

/-- C6: with the candidate list empty, every getPublicKey call returns none;
with N collected keys, N at least 1, the call numbered N+1 returns the public
half of the first collected key (the cycle wrapped around); both hold for
arbitrarily many calls, so repetition is always safe. -/
theorem getPublicKey_cycles (keys : List PrivateKey) (N : Nat)
    (hN : keys.length = N) :
    (1 ≤ N → ∃ k0, keys.head? = some k0 ∧
        nthPublicKey (initAuth keys) (N + 1) = some k0.public) ∧
    (N = 0 → ∀ m : Nat, nthPublicKey (initAuth keys) m = none) := by
  constructor
  · intro hpos
    have hne : keys ≠ [] := by
      intro hnil
      rw [hnil] at hN
      simp at hN
      omega
    obtain ⟨k, ks, rfl⟩ := List.exists_cons_of_ne_nil hne
    refine ⟨k, rfl, ?_⟩
    have hkeys := authStateAfterCalls_keys (initAuth (k :: ks)) N
    have hcur := authStateAfterCalls_cursor (initAuth (k :: ks)) hne N
    have hne2 : (authStateAfterCalls (initAuth (k :: ks)) N).found_keys ≠ [] := by
      rw [hkeys]; exact hne
    have hlen : 0 < (authStateAfterCalls (initAuth (k :: ks)) N).found_keys.length :=
      List.length_pos.mpr hne2
    have hlt := Nat.mod_lt ((authStateAfterCalls (initAuth (k :: ks)) N).cursor) hlen
    unfold nthPublicKey
    rw [Nat.add_sub_cancel,
      getPublicKey_nonempty (authStateAfterCalls (initAuth (k :: ks)) N) hne2 hlt]
    have hcur0 : (authStateAfterCalls (initAuth (k :: ks)) N).cursor %
        (authStateAfterCalls (initAuth (k :: ks)) N).found_keys.length = 0 := by
      rw [hcur, hkeys]
      simp [initAuth, hN, Nat.mod_self]
    simp only [Option.some.injEq]
    congr 1
    have : (authStateAfterCalls (initAuth (k :: ks)) N).found_keys.get
        ⟨(authStateAfterCalls (initAuth (k :: ks)) N).cursor %
          (authStateAfterCalls (initAuth (k :: ks)) N).found_keys.length, hlt⟩ = k := by
      rw [List.get_eq_getElem]
      simp only [hcur0]
      rw [List.getElem_eq_iff]
      rw [hkeys]
      simp [initAuth]
    rw [this]
  · intro h0
    have hnil : keys = [] := List.length_eq_zero.mp (hN.trans h0)
    subst hnil
    intro m
    have hfix : ∀ n, authStateAfterCalls (initAuth ([] : List PrivateKey)) n
        = initAuth [] := by
      intro n
      induction n with
      | zero => rfl
      | succ n ih =>
          show (getPublicKey (authStateAfterCalls (initAuth []) n)).2 = initAuth []
          rw [ih]
          rfl
    unfold nthPublicKey
    rw [hfix]
    rfl

/-- Witness for C6: with two collected keys the third call has wrapped back
to the public half of the first key. -/
theorem getPublicKey_cycles_witness :
    ∃ k0, [pkA, pkB].head? = some k0 ∧
      nthPublicKey (initAuth [pkA, pkB]) (2 + 1) = some k0.public :=
  (getPublicKey_cycles [pkA, pkB] 2 rfl).1 (by decide)

/-- Counterexample for C7: in the Opening state (fresh adapter, no protocol
yet, not disconnected) a delivered byte sequence is not dropped silently; the
forwarding attempt dereferences the absent protocol and raises. -/
theorem dataReceived_opening_not_silent :
    initChannel.connected = false ∧ initChannel.disconnected = false ∧
    dataReceived initChannel [0, 1] = .error (.attributeError "dataReceived") :=
  ⟨rfl, rfl, rfl⟩

/-- C7 amended: dataReceived forwards the bytes verbatim to the protocol
whenever the disconnected flag is unset and a protocol exists (in particular
while Open); it drops them silently exactly when disconnected; when not
disconnected but no protocol exists yet (Opening, FailedToOpen) it raises an
AttributeError instead of dropping. -/
theorem dataReceived_behavior (c : ChannelState) (data : Bytes) :
    (∀ p, c.disconnected = false → c.protocol = some p →
        dataReceived c data = .ok { c with protocol := some ⟨p.received ++ [data]⟩ }) ∧
    (c.disconnected = true → dataReceived c data = .ok c) ∧
    (c.disconnected = false → c.protocol = none →
        dataReceived c data = .error (.attributeError "dataReceived")) := by
  refine ⟨?_, ?_, ?_⟩
  · intro p hd hp
    simp [dataReceived, hd, hp]
  · intro hd
    simp [dataReceived, hd]
  · intro hd hp
    simp [dataReceived, hd, hp]

/-- Witness for C7 amended: an Open channel forwards a chunk verbatim. -/
theorem dataReceived_behavior_witness :
    dataReceived openChanEx [7, 8] =
      .ok { openChanEx with protocol := some ⟨[[7, 8]]⟩ } := by
  have h := (dataReceived_behavior openChanEx [7, 8]).1 ⟨[]⟩ (by rfl) (by rfl)
  simpa using h

/-- Counterexample for C8: from the Opening state, a stop-connecting request
moves to FailedToOpen (connector notified once, connector reference deleted);
the claim says a following open-confirmed signal is a no-op raising no error,
but channelOpen raises an AttributeError on the deleted connector. -/
theorem channelOpen_after_stop_counterexample :
    stopConnecting fwd0 =
      .ok (⟨⟨false, false, false, none, false, false, true⟩, conn0⟩,
           [.connectorConnectionFailed .userError]) ∧
    channelOpen ⟨⟨false, false, false, none, false, false, true⟩, conn0⟩ =
      .error (.attributeError "connector") :=
  ⟨rfl, rfl⟩

/-- C8 amended: after a stop-connecting request from the Opening state, an
open-confirmed signal does not transition state and does not re-fire the
failedToConnect or connectionLost signals, but it is not an errorless no-op:
channelOpen raises an AttributeError because the connector reference was
deleted when the adapter entered FailedToOpen. -/
theorem channelOpen_after_stop (s : ForwardState)
    (hc : s.chan.connected = false) (hd : s.chan.disconnected = false)
    (hcon : s.chan.hasConnector = true) :
    ∀ s1 ev1, stopConnecting s = .ok (s1, ev1) →
      channelOpen s1 = .error (.attributeError "connector") := by
  intro s1 ev1 hrun
  unfold stopConnecting failIfNotConnected fireConnectionFailedDefer at hrun
  simp only [hc, hd, hcon, Bool.or_false, Bool.or_self, Bool.not_true,
    Bool.false_eq_true, if_false, ite_false] at hrun
  by_cases hf : s.chan.connectionFailedDeferFired
  · simp [hf, Except.map] at hrun
  · by_cases hl : s.conn.loseconnection_on_protocolfailed
    · simp only [hf, hl, Bool.false_eq_true, if_false, if_true, ite_false,
        ite_true, Except.map, Except.ok.injEq, Prod.mk.injEq] at hrun
      obtain ⟨h1, -⟩ := hrun
      subst h1
      simp [channelOpen]
    · simp only [hf, hl, Bool.false_eq_true, if_false, ite_false, Except.map,
        Except.ok.injEq, Prod.mk.injEq] at hrun
      obtain ⟨h1, -⟩ := hrun
      subst h1
      simp [channelOpen]

/-- Witness for C8 amended: the concrete Opening adapter. -/
theorem channelOpen_after_stop_witness :
    channelOpen ⟨⟨false, false, false, none, false, false, true⟩, conn0⟩ =
      .error (.attributeError "connector") := by
  have h := channelOpen_after_stop fwd0 (by rfl) (by rfl) (by rfl)
    ⟨⟨false, false, false, none, false, false, true⟩, conn0⟩
    [.connectorConnectionFailed .userError] (by rfl)
  exact h

/-- C9: from an Open adapter owned by a propagate-on-loss connector, the first
connectionLost invocation makes exactly one loseConnection call on the parent
multiplexed connection (whether or not factory.stopTrying raises, that raise
being swallowed), and a second invocation of the loss path is a silent no-op
leaving the count at one. -/
theorem loseConnection_propagates_once (s : ForwardState) (p : ProtocolState)
    (hopen : s.chan.connected = true)
    (hp : s.chan.protocol = some p)
    (hcon : s.chan.hasConnector = true)
    (hdefer : s.chan.connectionLostDeferFired = false)
    (hflag : s.conn.loseconnection_on_protocollose = true)
    (hcount : s.conn.parentLoseConnectionCalls = 0) :
    ∃ s1, channelConnectionLost s =
        .ok (s1, [.protocolConnectionLost, .connectorConnectionLost]) ∧
      s1.conn.parentLoseConnectionCalls = 1 ∧
      channelConnectionLost s1 = .ok (s1, []) := by
  unfold channelConnectionLost
  rw [hp]
  simp only [hopen, Bool.not_true, Bool.false_eq_true, if_false, ite_false]
  unfold fireConnectionLostDefer
  simp only [hcon, hdefer, hflag, Bool.false_eq_true, if_false, ite_false,
    if_true, ite_true]
  unfold transportProtocolDisconnected stopTryingCall
  by_cases hraise : s.conn.stopTryingRaises
  · simp only [hraise, if_true, ite_true, hcount, Except.map]
    refine ⟨_, rfl, rfl, ?_⟩
    unfold failIfNotConnected
    simp
  · simp only [hraise, Bool.false_eq_true, if_false, ite_false, hcount,
      Except.map]
    refine ⟨_, rfl, rfl, ?_⟩
    unfold failIfNotConnected
    simp

/-- Witness for C9: the concrete Open adapter under a propagate-on-loss
connector. -/
theorem loseConnection_propagates_once_witness :
    ∃ s1, channelConnectionLost openFwd =
        .ok (s1, [.protocolConnectionLost, .connectorConnectionLost]) ∧
      s1.conn.parentLoseConnectionCalls = 1 ∧
      channelConnectionLost s1 = .ok (s1, []) :=
  loseConnection_propagates_once openFwd ⟨[]⟩ (by rfl) (by rfl) (by rfl)
    (by rfl) (by rfl) (by rfl)

/-- Counterexample for C2: a fatal connect-attempt failure whose reason is not
an SSHException (for example a plain TCP connection refusal surfaced through
clientConnectionFailed) does not invoke the registered failure callback at
all, although the claim promises exactly one invocation for errors of any
kind. -/
theorem errback_skipped_for_other_reason :
    cs0.hasErrback = true ∧
    clientConnectionLost cs0 (.other "connection refused") = cs0 := by
  constructor
  · rfl
  · rfl

/-- C2 amended: a fatal connect-attempt failure invokes the registered
failure callback exactly once when its reason is an SSHException of this
package (trust errors, remote disconnect errors); reasons of any other class
are handed to the base factory with the failure callback not invoked; the
success path never invokes it; in either case the wrapper only delegates and
never retries. -/
theorem errback_exactly_once_for_ssh (cs : CallbackState) (e : SSHException)
    (hreg : cs.hasErrback = true) :
    (clientConnectionLost cs (.ssh e)).errbackCalls = cs.errbackCalls ++ [.ssh e] ∧
    (∀ r : Reason, r.isSSHException = false → clientConnectionLost cs r = cs) ∧
    (processCallback cs).errbackCalls = cs.errbackCalls := by
  refine ⟨?_, ?_, ?_⟩
  · simp [clientConnectionLost, Reason.isSSHException, processErrback, hreg]
  · intro r hr
    simp [clientConnectionLost, hr]
  · unfold processCallback
    by_cases hc : cs.hasCallback <;> simp [hc]

/-- Witness for C2 amended: a BadHostKeyException reason produces exactly one
errback invocation on a freshly registered client. -/
theorem errback_exactly_once_for_ssh_witness :
    (clientConnectionLost cs0 (.ssh (.badHostKey "example.com" keyB keyA))).errbackCalls
      = [.ssh (.badHostKey "example.com" keyB keyA)] := by
  have h := (errback_exactly_once_for_ssh cs0
    (.badHostKey "example.com" keyB keyA) (by rfl)).1
  simpa using h

end TwistedSSHClient
